import Mathlib

/-!
Verification of the market-structure and signal-composition engine of the
xrp-12hr-bot scripts.  The definitions below translate, over exact rationals,
the pure computational core of `combined_xrp_intel_report.py` (namespace
`Combined`) and `xrp_report.py` (namespace `Xrp`).  Float arithmetic of the
source is modelled by exact rational arithmetic; the non-finite float values
that can arise (pandas NaN from an undefined rolling mean, infinities from a
zero mean) are modelled explicitly with `Option` and with the corresponding
branch structure, as documented at each definition.  Namespace `Spec` holds
definitions written from the specification text, used for refinement
comparisons against the code-derived definitions.
-/

namespace XrpBot

/-- Last `n` elements of a list, preserving order: pandas `Series.tail(n)`,
and also the window of `rolling(n).mean().iloc[-1]` (which ends at, and
contains, the final row). -/
def lastN (n : ℕ) (l : List α) : List α := l.drop (l.length - n)

/-- Arithmetic mean of a list of rationals (pandas `Series.mean`); the
sources only consume it on nonempty lists. -/
def qmean (l : List ℚ) : ℚ := l.sum / l.length

/-- Maximum of a list (pandas `Series.max`); the 0 default for the empty
list is never exercised by the modelled call sites. -/
def listMax : List ℚ → ℚ
  | [] => 0
  | x :: xs => xs.foldl max x

/-- Minimum of a list (pandas `Series.min`). -/
def listMin : List ℚ → ℚ
  | [] => 0
  | x :: xs => xs.foldl min x

/-- One OHLC candle, keeping exactly the fields the analyzed functions
read. -/
structure Candle where
  high : ℚ
  low : ℚ
  close : ℚ
deriving DecidableEq

/-- Volume-anomaly severity tier: the four outcome classes of
`volume_spike` (combined script) and `detect_volume_spike` (xrp_report);
`normal` stands for the "Normal" / `level = None` outcome. -/
inductive Tier where
  | extreme
  | strong
  | caution
  | normal
deriving DecidableEq

/-- Floor of a rational: since the denominator is positive, Euclidean
division of the numerator by the denominator is the floor.  (Defined
directly so that it reduces inside the kernel.) -/
def qfloor (q : ℚ) : ℤ := q.num.ediv q.den

/-- Ceiling of a rational. -/
def qceil (q : ℚ) : ℤ := -qfloor (-q)

/-- Two-argument minimum on ℚ, written out so that it reduces. -/
def qmin (a b : ℚ) : ℚ := if a ≤ b then a else b

/-- Two-argument maximum on ℚ. -/
def qmax (a b : ℚ) : ℚ := if b ≤ a then a else b

/-- Two-argument minimum on ℤ. -/
def zmin (a b : ℤ) : ℤ := if a ≤ b then a else b

/-- Two-argument maximum on ℤ. -/
def zmax (a b : ℤ) : ℤ := if b ≤ a then a else b

/-- Round to the nearest integer, ties to even: the rounding Python's
`round` performs (on the exactly represented value; the concrete inputs
used in the theorems below are far from representation boundaries). -/
def roundHalfEven (x : ℚ) : ℤ :=
  if x - qfloor x < 1/2 then qfloor x
  else if 1/2 < x - qfloor x then qfloor x + 1
  else if qfloor x % 2 = 0 then qfloor x
  else qfloor x + 1

/-- Python `round(x, 2)`. -/
def round2 (x : ℚ) : ℚ := (roundHalfEven (x * 100) : ℚ) / 100

/-- Python `int(x)` on a number: truncation toward zero. -/
def pyTrunc (x : ℚ) : ℤ := if 0 ≤ x then qfloor x else qceil x

namespace Combined

/-- Tier assigned by `volume_spike` (combined_xrp_intel_report.py lines
160-166) to an already-computed finite ratio: the code first rounds the
ratio to two decimals (`ratio = round(ratio, 2)`) and then compares it
against 1.5 / 1.3 / 1.15 with inclusive lower bounds. -/
def tierFromRaw (r : ℚ) : Tier :=
  let rr := round2 r
  if rr ≥ 3/2 then .extreme
  else if rr ≥ 13/10 then .strong
  else if rr ≥ 23/20 then .caution
  else .normal

/-- `df["volume"].iloc[-1] / df["volume"].rolling(24).mean().iloc[-1]` as
computed in `build_discord_message` (line 271): `none` models a non-finite
float result (NaN when fewer than 24 rows exist, so the rolling mean is
NaN, and NaN or an infinity when the mean is exactly zero). -/
def volumeRatioVal (vols : List ℚ) : Option ℚ :=
  if vols.length < 24 then none
  else
    let avg := qmean (lastN 24 vols)
    if avg = 0 then none
    else some ((vols.getLast?.getD 0) / avg)

/-- The tier produced by `volume_spike` (lines 160-166).  `none` models the
IndexError raised by `iloc[-1]` on an empty frame.  With fewer than 24 rows
the rolling mean is NaN, every `>=` comparison on the NaN ratio is false and
the result is "Normal".  With a zero mean, numpy division yields +inf for a
positive last volume (classified Extreme), and NaN or -inf otherwise
(classified Normal); no exception is raised. -/
def volumeSpikeTier (vols : List ℚ) : Option Tier :=
  if vols.isEmpty then none
  else if vols.length < 24 then some .normal
  else
    let avg := qmean (lastN 24 vols)
    let las := vols.getLast?.getD 0
    if avg = 0 then (if las > 0 then some .extreme else some .normal)
    else some (tierFromRaw (las / avg))

/-- The level set produced by `dynamic_levels` (lines 200-228). -/
structure DLevels where
  breakout_weak : ℚ
  breakout_strong : ℚ
  breakdown_weak : ℚ
  breakdown_strong : ℚ
  danger : ℚ
  range_mode : String
deriving DecidableEq

/-- `dynamic_levels` (combined_xrp_intel_report.py lines 200-228): selects
the trailing 24-candle range when price has dropped more than 10% from the
trailing 168-candle high, otherwise the 168-candle range, and anchors fixed
retracement fractions to the selected low.  `none` models the IndexError of
`iloc[-1]` on an empty frame. -/
def dynamicLevels (df : List Candle) : Option DLevels :=
  if df.isEmpty then none
  else
    let price := ((df.map Candle.close).getLast?).getD 0
    let recent_high := listMax (lastN 24 (df.map Candle.high))
    let recent_low := listMin (lastN 24 (df.map Candle.low))
    let weekly_high := listMax (lastN 168 (df.map Candle.high))
    let weekly_low := listMin (lastN 168 (df.map Candle.low))
    let drop_from_week := if weekly_high > 0 then (weekly_high - price) / weekly_high else 0
    let crash := drop_from_week > 1/10
    let hi := if crash then recent_high else weekly_high
    let lo := if crash then recent_low else weekly_low
    let r := if hi > lo then hi - lo else 1/10000
    some
      { breakout_weak := lo + r * (382/1000)
        breakout_strong := lo + r * (618/1000)
        breakdown_weak := lo + r * (236/1000)
        breakdown_strong := lo + r * (118/1000)
        danger := lo
        range_mode := if crash then "24h crash mode" else "7-day" }

/-- The `triggers` list built inside `flips_triggers` (lines 230-237):
note the `if`/`elif` pairs, so a strong breakout (resp. breakdown)
suppresses the corresponding weak entry. -/
def flipsTriggersList (price : ℚ) (L : DLevels) : List String :=
  (if price > L.breakout_strong then ["🚀 Strong Bullish Breakout"]
   else if price > L.breakout_weak then ["Bullish Breakout (Weak)"]
   else [])
  ++ (if price < L.breakdown_strong then ["💥 Strong Bearish Breakdown"]
      else if price < L.breakdown_weak then ["Bearish Breakdown (Weak)"]
      else [])
  ++ (if price < L.danger then ["🚨 Danger Zone"] else [])

/-- Return value of `flips_triggers`: `triggers[0] if triggers else
"Stable"`. -/
def flipsTriggers (price : ℚ) (L : DLevels) : String :=
  (flipsTriggersList price L).headD "Stable"

/-- The structure-classification fallback branch of
`compute_market_structure` (lines 184-194): it takes the last 3 swing rows
(`swing_df.tail(3)`), each carrying a `high` and a `low` value (modelled as
a pair, high first), and compares each column over those same 3 rows.  The
preceding BOS/CHOCH branches and the swing extraction itself are calls into
the external `smartmoneyconcepts` library and are outside this model. -/
def structureFromSwings (swings : List (ℚ × ℚ)) : String :=
  match lastN 3 swings with
  | [a, b, c] =>
    if c.1 > b.1 ∧ b.1 > a.1 ∧ c.2 > b.2 ∧ b.2 > a.2 then "Bullish Structure 🟢"
    else if c.1 < b.1 ∧ b.1 < a.1 ∧ c.2 < b.2 ∧ b.2 < a.2 then "Bearish Structure 🔴"
    else "Ranging Structure ⚪"
  | _ => "No Clear Structure"

/-- The scalar and categorical inputs consumed by the bull/bear score of
`build_discord_message` (lines 281-301); the categorical ones are the exact
strings produced upstream by `compute_indicators`. -/
structure ScoreInputs where
  price : ℚ
  ema200 : ℚ
  macd : ℚ
  signal : ℚ
  rsi : ℚ
  hist_trend : String
  price_change_1h : ℚ
  bb_signal : String
  stoch_signal : String
  obv_trend : String
  rsi_div : String
  macd_div : String
  adx_signal : String

/-- `bull_score` as accumulated in `build_discord_message` lines 281-299.
The 1-hour momentum bonus `min(10, price_change_1h * 2)` is a float, so the
accumulated score need not be an integer; the ADX branch applies Python
`int()` truncation. -/
def bullScore (i : ScoreInputs) : ℚ :=
  let s : ℚ := 0
  let s := if i.price > i.ema200 then s + 30 else s
  let s := if i.macd > i.signal then s + 25 else s
  let s := if i.rsi < 30 then s + 20 else if i.rsi > 70 then s - 20 else s
  let s := if i.hist_trend = "Increasing 🟢" then s + 15 else s
  let s := if i.price_change_1h > 0 then s + qmin 10 (i.price_change_1h * 2) else s
  let s := if i.bb_signal = "Oversold 🟢" then s + 10
           else if i.bb_signal = "Overbought 🔴" then s - 10 else s
  let s := if i.stoch_signal = "Bullish Cross 🟢" then s + 15
           else if i.stoch_signal = "Bearish Cross 🔴" then s - 15 else s
  let s := if i.obv_trend = "Rising 🟢" then s + 20
           else if i.obv_trend = "Falling 🔴" then s - 20 else s
  let s := if i.rsi_div = "Bullish Divergence 🟢" then s + 15
           else if i.rsi_div = "Bearish Divergence 🔴" then s - 15 else s
  let s := if i.macd_div = "Bullish Divergence 🟢" then s + 15
           else if i.macd_div = "Bearish Divergence 🔴" then s - 15 else s
  if i.adx_signal = "Strong Trend 🟢" then
    (if s > 0 then (pyTrunc (s * (12/10)) : ℚ) else (pyTrunc (s * (8/10)) : ℚ))
  else s

/-- `bull = min(100, max(0, 50 + bull_score))` (line 300). -/
def bullProb (i : ScoreInputs) : ℚ := qmin 100 (qmax 0 (50 + bullScore i))

/-- `bear = 100 - bull` (line 301). -/
def bearProb (i : ScoreInputs) : ℚ := 100 - bullProb i

end Combined

namespace Xrp

/-- Result record of `detect_volume_spike` (xrp_report.py lines 167-183):
`ratioVal`/`avg`/`lastVol` are the `ratio`/`avg`/`last` entries and
`level` the `level` entry (`none` = Python `None`). -/
structure VolResult where
  ratioVal : ℚ
  avg : ℚ
  lastVol : ℚ
  level : Option String
deriving DecidableEq

/-- The trailing average used by `detect_volume_spike`: mean of the last 24
volumes, falling back to the mean of whatever exists (or 0 for an empty
series) when fewer than 24 rows are available. -/
def volAvg (vols : List ℚ) : ℚ :=
  if vols.length < 24 then (if vols.length > 0 then qmean vols else 0)
  else qmean (lastN 24 vols)

/-- The tier chain of `detect_volume_spike` lines 176-182, against
`VOLUME_SPIKE_LEVELS = caution 1.15, strong 1.30, extreme 1.50`. -/
def classifyLevel (rt : ℚ) : Option String :=
  if rt ≥ 3/2 then some "EXTREME"
  else if rt ≥ 13/10 then some "STRONG"
  else if rt ≥ 23/20 then some "CAUTION"
  else none

/-- `detect_volume_spike` (lines 167-183).  `none` models the IndexError
raised by `vol_series.iloc[-1]` on an empty series; otherwise the ratio is
guarded (`last / avg if avg > 0 else 0`), so no division by zero occurs. -/
def detectVolumeSpike (vols : List ℚ) : Option VolResult :=
  if vols.isEmpty then none
  else
    let avg := volAvg vols
    let las := vols.getLast?.getD 0
    let rt := if avg > 0 then las / avg else 0
    some ⟨rt, avg, las, classifyLevel rt⟩

/-- The level set produced by `compute_dynamic_levels` (xrp_report.py lines
336-352). -/
structure XLevels where
  recent_high : ℚ
  recent_low : ℚ
  breakout_weak : ℚ
  breakout_strong : ℚ
  breakdown_weak : ℚ
  breakdown_strong : ℚ
  danger : ℚ
deriving DecidableEq

/-- `compute_dynamic_levels` (lines 336-352): multiplicative offsets from
the trailing 24-candle close range; there is no short/long range selection
and no retracement fraction in this variant. -/
def computeDynamicLevels (closes : List ℚ) : XLevels :=
  let recent_high := listMax (lastN 24 closes)
  let recent_low := listMin (lastN 24 closes)
  { recent_high := recent_high
    recent_low := recent_low
    breakout_weak := recent_high * (102/100)
    breakout_strong := recent_high * (106/100)
    breakdown_weak := recent_low * (98/100)
    breakdown_strong := recent_low * (95/100)
    danger := recent_low * (92/100) }

/-- The `flips` list of `compose_and_send_report` (lines 437-450): five
independent `if` statements, appended in this fixed order. -/
def flips (price : ℚ) (L : XLevels) : List String :=
  (if price > L.breakout_weak then ["Bullish breakout (weak)"] else [])
  ++ (if price > L.breakout_strong then ["Bullish breakout (strong)"] else [])
  ++ (if price < L.breakdown_weak then ["Bearish breakdown (weak)"] else [])
  ++ (if price < L.breakdown_strong then ["Bearish breakdown (strong)"] else [])
  ++ (if price < L.danger then ["DANGER: price below danger level"] else [])

/-- `flips_text = ", ".join(flips) if flips else "None"` (line 450). -/
def flipsText (price : ℚ) (L : XLevels) : String :=
  let fl := flips price L
  if fl.isEmpty then "None" else String.intercalate ", " fl

/-- The bullish/bearish probability pair of `compose_and_send_report`
(lines 364-384): both counters start at 50, are adjusted in opposite
directions by each condition, and are clamped to [0, 100] separately.
Python keeps these as machine integers, hence the ℤ codomain. -/
def composeScores (price ma50 ma200 macd_line macd_signal rsi : ℚ) : ℤ × ℤ :=
  let b1 : ℤ := if price > ma50 then 50 + 15 else 50 - 15
  let e1 : ℤ := if price > ma50 then 50 - 15 else 50 + 15
  let b2 := if macd_line > macd_signal then b1 + 20 else b1 - 20
  let e2 := if macd_line > macd_signal then e1 - 20 else e1 + 20
  let b3 := if rsi < 30 then b2 + 10 else if rsi > 70 then b2 - 10 else b2
  let e3 := if rsi < 30 then e2 - 10 else if rsi > 70 then e2 + 10 else e2
  let b4 := if ma50 > ma200 then b3 + 5 else b3
  let e4 := if ma50 > ma200 then e3 - 5 else e3
  (zmax 0 (zmin 100 b4), zmax 0 (zmin 100 e4))

/-- The local-minima scan of `detect_rsi_divergence` (xrp_report.py lines
195-200): `for i in range(window, length - window)` collecting indices
whose price is below both immediate neighbours.  The source fixes
`window = 3`; the window is kept as a parameter here exactly as it appears
in the loop bounds. -/
def localLows (w : ℕ) (price : List ℚ) : List ℕ :=
  (List.range' w (price.length - 2 * w)).filter
    (fun i => decide (price.getD i 0 < price.getD (i - 1) 0 ∧
      price.getD i 0 < price.getD (i + 1) 0))

/-- The local-maxima scan of `detect_rsi_divergence` (lines 213-216). -/
def localHighs (w : ℕ) (price : List ℚ) : List ℕ :=
  (List.range' w (price.length - 2 * w)).filter
    (fun i => decide (price.getD i 0 > price.getD (i - 1) 0 ∧
      price.getD i 0 > price.getD (i + 1) 0))

end Xrp

namespace Spec

/-- Modelled from the spec: the composite bullish score exactly as the
claim states it — start at 50; +15 if price > ma50 else -15; +20 if
macd_line > macd_signal else -20; +10 if rsi < 30 and -10 if rsi > 70;
+5 if ma50 > ma200; clamp to [0, 100]. -/
def claimBullish (price ma50 ma200 macd_line macd_signal rsi : ℚ) : ℤ :=
  zmax 0 (zmin 100 (50 + (if price > ma50 then 15 else -15)
    + (if macd_line > macd_signal then 20 else -20)
    + (if rsi < 30 then 10 else if rsi > 70 then -10 else 0)
    + (if ma50 > ma200 then 5 else 0)))

/-- Modelled from the spec: tiers evaluated high-to-low, first match wins,
inclusive lower bounds 1.50 / 1.30 / 1.15. -/
def claimTier (rt : ℚ) : Tier :=
  if rt ≥ 3/2 then .extreme
  else if rt ≥ 13/10 then .strong
  else if rt ≥ 23/20 then .caution
  else .normal

/-- Modelled from the spec: split the swing rows into the High subsequence
and the Low subsequence, take the last 3 of each (fewer than 3 of either
kind is the insufficient-data outcome); Bullish iff both triples are
strictly increasing in chronological order, Bearish iff both strictly
decreasing, otherwise Ranging. -/
def classifyStructure (swings : List (ℚ × ℚ)) : String :=
  let highs := swings.map Prod.fst
  let lows := swings.map Prod.snd
  if highs.length < 3 ∨ lows.length < 3 then "No Clear Structure"
  else
    match lastN 3 highs, lastN 3 lows with
    | [h1, h2, h3], [l1, l2, l3] =>
      if h1 < h2 ∧ h2 < h3 ∧ l1 < l2 ∧ l2 < l3 then "Bullish Structure 🟢"
      else if h3 < h2 ∧ h2 < h1 ∧ l3 < l2 ∧ l2 < l1 then "Bearish Structure 🔴"
      else "Ranging Structure ⚪"
    | _, _ => "No Clear Structure"

end Spec

/-- `qfloor` agrees with the mathematical floor. -/
theorem qfloor_eq (q : ℚ) : qfloor q = ⌊q⌋ := by
  rw [Rat.floor_def]; rfl

/-- `qceil` agrees with the mathematical ceiling. -/
theorem qceil_eq (q : ℚ) : qceil q = ⌈q⌉ := by
  rw [qceil, qfloor_eq, Int.floor_neg, neg_neg]

theorem mem_ite_singleton {c : Prop} [Decidable c] {x a : α} :
    x ∈ (if c then [a] else ([] : List α)) ↔ c ∧ x = a := by
  split
  · simp_all
  · simp_all

theorem lastN_length (n : ℕ) (l : List α) : (lastN n l).length = min n l.length := by
  simp only [lastN, List.length_drop]
  omega

theorem lastN_ne_nil {l : List α} (h : l ≠ []) {n : ℕ} (hn : 0 < n) : lastN n l ≠ [] := by
  have h1 : 0 < l.length := List.length_pos.2 h
  have h2 := lastN_length n l
  intro he
  rw [he] at h2
  simp only [List.length_nil] at h2
  omega

theorem getLast?_drop (l : List α) (k : ℕ) (h : k < l.length) :
    (l.drop k).getLast? = l.getLast? := by
  induction l generalizing k with
  | nil => simp at h
  | cons x xs ih =>
    cases k with
    | zero => rfl
    | succ k =>
      simp only [List.drop_succ_cons]
      have hk : k < xs.length := by simpa using h
      rw [ih k hk]
      cases xs with
      | nil => simp at hk
      | cons y ys => exact (List.getLast?_cons_cons).symm

theorem getLast_mem_lastN (l : List ℚ) (h : l ≠ []) (n : ℕ) (hn : 0 < n) :
    l.getLast?.getD 0 ∈ lastN n l := by
  have h1 : lastN n l ≠ [] := lastN_ne_nil h hn
  have hlen : l.length - n < l.length := by
    have := List.length_pos.2 h
    omega
  have h2 : (lastN n l).getLast? = l.getLast? := getLast?_drop l _ hlen
  cases hx : l.getLast? with
  | none => exact absurd (List.getLast?_eq_none_iff.1 hx) h
  | some a =>
    have ha : a ∈ lastN n l := List.mem_of_getLast?_eq_some (by rw [h2, hx])
    simpa [hx] using ha

theorem qmean_of_zeros {l : List ℚ} (h : ∀ v ∈ l, v = 0) : qmean l = 0 := by
  rw [qmean, List.sum_eq_zero h, zero_div]

/-- C1 counterexample: in `flips_triggers` of the combined script the
breakout conditions are `if`/`elif`, so at price 3 with
breakout_strong = 2 > breakout_weak = 1 the weak trigger is absent even
though its condition holds, only the first trigger is returned, and the
claimed "both triggers, weak first" output does not occur. -/
theorem c1_counterexample :
    Combined.flipsTriggers 3 ⟨1, 2, 0, -1, -2, "7-day"⟩ = "🚀 Strong Bullish Breakout" ∧
    "Bullish Breakout (Weak)" ∉ Combined.flipsTriggersList 3 ⟨1, 2, 0, -1, -2, "7-day"⟩ ∧
    (3 : ℚ) > 1 ∧ (2 : ℚ) > 1 := by
  refine ⟨?_, ?_, by norm_num, by norm_num⟩
  · norm_num [Combined.flipsTriggers, Combined.flipsTriggersList]
  · norm_num [Combined.flipsTriggersList]
    decide

/-- C1 (amended): in the xrp_report composer the flips list contains
exactly the triggers whose conditions hold, in the fixed order
weak-bullish, strong-bullish, weak-bearish, strong-bearish, danger (so
a strong bullish breakout with ordered levels yields both bullish
entries, weak first), and an empty list renders as "None"; in the
combined script's `flips_triggers` the strong breakout suppresses the
weak one and at most one of the two bullish triggers can appear. -/
theorem c1_flips_spec (p : ℚ) (L : Xrp.XLevels) (M : Combined.DLevels) :
    (("Bullish breakout (weak)" ∈ Xrp.flips p L ↔ p > L.breakout_weak) ∧
     ("Bullish breakout (strong)" ∈ Xrp.flips p L ↔ p > L.breakout_strong) ∧
     ("Bearish breakdown (weak)" ∈ Xrp.flips p L ↔ p < L.breakdown_weak) ∧
     ("Bearish breakdown (strong)" ∈ Xrp.flips p L ↔ p < L.breakdown_strong) ∧
     ("DANGER: price below danger level" ∈ Xrp.flips p L ↔ p < L.danger)) ∧
    (p > L.breakout_strong → L.breakout_strong > L.breakout_weak →
      (Xrp.flips p L).take 2 = ["Bullish breakout (weak)", "Bullish breakout (strong)"]) ∧
    (Xrp.flips p L = [] → Xrp.flipsText p L = "None") ∧
    ¬ ("🚀 Strong Bullish Breakout" ∈ Combined.flipsTriggersList p M ∧
       "Bullish Breakout (Weak)" ∈ Combined.flipsTriggersList p M) := by
  refine ⟨⟨?_, ?_, ?_, ?_, ?_⟩, ?_, ?_, ?_⟩
  · simp [Xrp.flips, mem_ite_singleton, List.mem_append]
  · simp [Xrp.flips, mem_ite_singleton, List.mem_append]
  · simp [Xrp.flips, mem_ite_singleton, List.mem_append]
  · simp [Xrp.flips, mem_ite_singleton, List.mem_append]
  · simp [Xrp.flips, mem_ite_singleton, List.mem_append]
  · intro h1 h2
    have h0 : p > L.breakout_weak := h2.trans h1
    simp [Xrp.flips, h0, h1]
  · intro h
    simp [Xrp.flipsText, h]
  · rintro ⟨hs, hw⟩
    by_cases h1 : p > M.breakout_strong <;>
    by_cases h3 : p < M.breakdown_strong <;>
    by_cases h5 : p < M.danger <;>
    by_cases h2 : p > M.breakout_weak <;>
    by_cases h4 : p < M.breakdown_weak <;>
    simp_all [Combined.flipsTriggersList]

/-- C1 witness: the amended theorem applied at a concrete price and
level set with ordered breakout levels. -/
theorem c1_flips_spec_witness :
    (Xrp.flips 3 ⟨0, 0, 1, 2, -1, -2, -3⟩).take 2 =
      ["Bullish breakout (weak)", "Bullish breakout (strong)"] :=
  (c1_flips_spec 3 ⟨0, 0, 1, 2, -1, -2, -3⟩ ⟨1, 2, 0, -1, -2, "7-day"⟩).2.1
    (by norm_num) (by norm_num)

/-- `pyTrunc` fixes integer inputs. -/
theorem pyTrunc_intCast (n : ℤ) : pyTrunc (n : ℚ) = n := by
  rw [pyTrunc, qfloor_eq, qceil_eq]
  split
  · exact Int.floor_intCast n
  · exact Int.ceil_intCast n

/-- C2 counterexample: the combined report's probability is not produced
by the claimed adjustment set.  With only `price > ema200` true and a
strong ADX signal the combined score is 86, a value the claimed formula
(whose adjustments are all multiples of 5 around 50) can never attain at
any indicator values. -/
theorem c2_counterexample :
    Combined.bullProb ⟨1, 0, 0, 0, 50, "x", 0, "x", "x", "x", "x", "x", "Strong Trend 🟢"⟩ = 86 ∧
    ∀ price ma50 ma200 macd_line macd_signal rsi : ℚ,
      Spec.claimBullish price ma50 ma200 macd_line macd_signal rsi ≠ 86 := by
  constructor
  · have h36 : pyTrunc (36 : ℚ) = 36 := by
      rw [show (36 : ℚ) = ((36 : ℤ) : ℚ) by norm_num, pyTrunc_intCast]
    simp [Combined.bullProb, Combined.bullScore, qmin, qmax]
    norm_num [h36]
  · intro price ma50 ma200 macd_line macd_signal rsi
    simp only [Spec.claimBullish, zmin, zmax]
    split_ifs <;> omega

/-- C2 (amended): the claimed composite-score formula (start at 50;
±15 on price vs MA50; ±20 on the MACD cross; +10 or -10 on RSI extremes;
+5 when MA50 > MA200; clamp to [0, 100]; bearish = 100 - bullish) is
exactly the score of `compose_and_send_report` in xrp_report.py; the
combined report computes its probability from a different indicator set
with different weights. -/
theorem c2_score_formula (price ma50 ma200 macd_line macd_signal rsi : ℚ) :
    (Xrp.composeScores price ma50 ma200 macd_line macd_signal rsi).1 =
      Spec.claimBullish price ma50 ma200 macd_line macd_signal rsi ∧
    (Xrp.composeScores price ma50 ma200 macd_line macd_signal rsi).2 =
      100 - (Xrp.composeScores price ma50 ma200 macd_line macd_signal rsi).1 := by
  by_cases h1 : price > ma50 <;>
  by_cases h2 : macd_line > macd_signal <;>
  by_cases h3 : rsi < 30 <;>
  by_cases h4 : rsi > 70 <;>
  by_cases h5 : ma50 > ma200 <;>
  norm_num [Xrp.composeScores, Spec.claimBullish, zmin, zmax, h1, h2, h3, h4, h5]

/-- C3 counterexample: with a 1-hour price change of 0.75% the combined
report's bullish probability is 63/2 = 31.5, which is not an integer, so
the claim that the scores are always integers fails on that variant. -/
theorem c3_counterexample :
    Combined.bullProb ⟨1, 2, 0, 1, 50, "x", 3/4, "x", "x", "Falling 🔴", "x", "x", "x"⟩ = 63/2 ∧
    ∀ n : ℤ, (n : ℚ) ≠ 63/2 := by
  constructor
  · simp [Combined.bullProb, Combined.bullScore, qmin, qmax]
    norm_num
  · intro n h
    have h1 : ((2 * n : ℤ) : ℚ) = ((63 : ℤ) : ℚ) := by push_cast; linarith
    have h2 : (2 * n : ℤ) = 63 := Int.cast_injective h1
    omega

/-- C3 (amended): in both variants the bullish and bearish scores lie in
[0, 100] and sum to exactly 100 for every input; the xrp_report scores
are integers (ℤ-valued by construction), while the combined score can be
non-integral because of the fractional 1-hour momentum bonus. -/
theorem c3_scores_bounded (price ma50 ma200 macd_line macd_signal rsi : ℚ)
    (i : Combined.ScoreInputs) :
    (0 ≤ (Xrp.composeScores price ma50 ma200 macd_line macd_signal rsi).1 ∧
     (Xrp.composeScores price ma50 ma200 macd_line macd_signal rsi).1 ≤ 100 ∧
     0 ≤ (Xrp.composeScores price ma50 ma200 macd_line macd_signal rsi).2 ∧
     (Xrp.composeScores price ma50 ma200 macd_line macd_signal rsi).2 ≤ 100 ∧
     (Xrp.composeScores price ma50 ma200 macd_line macd_signal rsi).1 +
       (Xrp.composeScores price ma50 ma200 macd_line macd_signal rsi).2 = 100) ∧
    (0 ≤ Combined.bullProb i ∧ Combined.bullProb i ≤ 100 ∧
     0 ≤ Combined.bearProb i ∧ Combined.bearProb i ≤ 100 ∧
     Combined.bullProb i + Combined.bearProb i = 100) := by
  constructor
  · by_cases h1 : price > ma50 <;>
    by_cases h2 : macd_line > macd_signal <;>
    by_cases h3 : rsi < 30 <;>
    by_cases h4 : rsi > 70 <;>
    by_cases h5 : ma50 > ma200 <;>
    norm_num [Xrp.composeScores, zmin, zmax, h1, h2, h3, h4, h5]
  · have hb : 0 ≤ Combined.bullProb i ∧ Combined.bullProb i ≤ 100 := by
      rw [Combined.bullProb, qmin, qmax]
      split_ifs <;> constructor <;> linarith
    refine ⟨hb.1, hb.2, ?_, ?_, ?_⟩
    · rw [Combined.bearProb]; linarith [hb.2]
    · rw [Combined.bearProb]; linarith [hb.1]
    · rw [Combined.bearProb]; ring

/-- C4 counterexample: the combined script rounds the ratio to two
decimals before classifying, so a raw ratio of 1.149999 rounds to 1.15
and is classified Caution ("Elevated"), not Normal as the claim
requires. -/
theorem c4_counterexample :
    Combined.tierFromRaw (1149999/1000000) = Tier.caution := by
  have hf : qfloor ((1149999/1000000 : ℚ) * 100) = 114 := by
    rw [qfloor_eq, Int.floor_eq_iff]
    norm_num
  simp only [Combined.tierFromRaw, round2, roundHalfEven, hf]
  norm_num

/-- C4 (amended): on the raw ratio, the xrp_report detector implements
exactly the claimed inclusive high-to-low tiering (so 1.149999 is Normal
there); the combined script applies the same tiering to the ratio rounded
half-to-even to two decimals, which pushes values within 0.005 of a
boundary (such as 1.149999) into the higher tier. -/
theorem c4_tier_bounds (rt : ℚ) :
    (Xrp.classifyLevel rt = some "EXTREME" ↔ 3/2 ≤ rt) ∧
    (Xrp.classifyLevel rt = some "STRONG" ↔ 13/10 ≤ rt ∧ rt < 3/2) ∧
    (Xrp.classifyLevel rt = some "CAUTION" ↔ 23/20 ≤ rt ∧ rt < 13/10) ∧
    (Xrp.classifyLevel rt = none ↔ rt < 23/20) ∧
    Combined.tierFromRaw rt = Spec.claimTier (round2 rt) := by
  refine ⟨?_, ?_, ?_, ?_, ?_⟩
  · simp only [Xrp.classifyLevel]
    split_ifs <;> simp_all <;> intros <;> linarith
  · simp only [Xrp.classifyLevel]
    split_ifs <;> simp_all <;> intros <;> linarith
  · simp only [Xrp.classifyLevel]
    split_ifs <;> simp_all <;> intros <;> linarith
  · simp only [Xrp.classifyLevel]
    split_ifs <;> simp_all <;> intros <;> linarith
  · rfl

/-- C5: for every nonempty volume series whose trailing mean (as each
variant computes it) is zero or undefined, the xrp_report detector
reports ratio 0 with no tier and the combined script reports Normal;
neither divides by zero and neither raises.  (An empty series is a
contract violation per the spec's error-handling section: there
`iloc[-1]` raises, which both models mark by `none`.) -/
theorem c5_volume_guard (vols : List ℚ) (hne : vols ≠ []) :
    (Xrp.detectVolumeSpike vols).isSome ∧
    (Combined.volumeSpikeTier vols).isSome ∧
    (Xrp.volAvg vols = 0 →
      Xrp.detectVolumeSpike vols = some ⟨0, 0, vols.getLast?.getD 0, none⟩) ∧
    ((vols.length < 24 ∨ ∀ v ∈ lastN 24 vols, v = 0) →
      Combined.volumeSpikeTier vols = some Tier.normal) := by
  have hni : vols.isEmpty = false := by simpa [List.isEmpty_iff] using hne
  refine ⟨?_, ?_, ?_, ?_⟩
  · simp [Xrp.detectVolumeSpike, hni]
  · simp only [Combined.volumeSpikeTier, hni]
    split_ifs <;> simp_all
  · intro hz
    norm_num [Xrp.detectVolumeSpike, hni, hz, Xrp.classifyLevel]
  · intro hcond
    rcases hcond with hlen | hzero
    · simp [Combined.volumeSpikeTier, hni, hlen]
    · by_cases hlen : vols.length < 24
      · simp [Combined.volumeSpikeTier, hni, hlen]
      · have havg : qmean (lastN 24 vols) = 0 := qmean_of_zeros hzero
        have hlas : vols.getLast?.getD 0 = 0 :=
          hzero _ (getLast_mem_lastN vols hne 24 (by norm_num))
        simp [Combined.volumeSpikeTier, hni, hlen, havg, hlas]

/-- C5 witness: a one-candle series with zero volume. -/
theorem c5_volume_guard_witness :
    Xrp.detectVolumeSpike [0] = some ⟨0, 0, 0, none⟩ ∧
    Combined.volumeSpikeTier [0] = some Tier.normal := by
  have h := c5_volume_guard [0] (by simp)
  refine ⟨?_, ?_⟩
  · have hz : Xrp.volAvg [0] = 0 := by norm_num [Xrp.volAvg, qmean]
    simpa using h.2.2.1 hz
  · exact h.2.2.2 (Or.inl (by norm_num))

theorem lastN_map (f : α → β) (l : List α) (n : ℕ) :
    lastN n (l.map f) = (lastN n l).map f := by
  simp [lastN, List.map_drop]

/-- C6: the structure-classification branch agrees with the claim's
reading — splitting the swing rows into the High column and the Low
column and taking the last 3 of each is the same as taking the last 3
rows; fewer than 3 swing rows yields the insufficient-data outcome, and
the Bullish/Bearish/Ranging conditions match exactly. -/
theorem c6_structure_equiv (swings : List (ℚ × ℚ)) :
    Combined.structureFromSwings swings = Spec.classifyStructure swings := by
  have hl := lastN_length 3 swings
  rcases h : lastN 3 swings with _ | ⟨a, _ | ⟨b, _ | ⟨c, rest⟩⟩⟩ <;> rw [h] at hl
  · have hlen : swings.length < 3 := by simp at hl; omega
    simp [Combined.structureFromSwings, h, Spec.classifyStructure, hlen]
  · have hlen : swings.length < 3 := by simp at hl; omega
    simp [Combined.structureFromSwings, h, Spec.classifyStructure, hlen]
  · have hlen : swings.length < 3 := by simp at hl; omega
    simp [Combined.structureFromSwings, h, Spec.classifyStructure, hlen]
  · have hrest : rest = [] := by
      simp only [List.length_cons] at hl
      exact List.length_eq_zero.1 (by omega)
    subst hrest
    have hlen : ¬ swings.length < 3 := by simp at hl; omega
    have hf := lastN_map Prod.fst swings 3
    have hs := lastN_map Prod.snd swings 3
    rw [h] at hf hs
    simp only [Combined.structureFromSwings, h, Spec.classifyStructure,
      List.length_map, hf, hs, List.map_cons, List.map_nil, if_neg hlen]
    have hbull : (c.1 > b.1 ∧ b.1 > a.1 ∧ c.2 > b.2 ∧ b.2 > a.2) ↔
        (a.1 < b.1 ∧ b.1 < c.1 ∧ a.2 < b.2 ∧ b.2 < c.2) := by
      constructor <;> rintro ⟨x1, x2, x3, x4⟩ <;> exact ⟨x2, x1, x4, x3⟩
    rw [if_neg (show ¬(swings.length < 3 ∨ swings.length < 3) by simp [hlen]),
      if_congr hbull rfl rfl]

namespace Combined

/-- `drop_from_week` as computed inside `dynamic_levels`. -/
def dropFromWeek (df : List Candle) : ℚ :=
  let price := ((df.map Candle.close).getLast?).getD 0
  let wh := listMax (lastN 168 (df.map Candle.high))
  if wh > 0 then (wh - price) / wh else 0

/-- The high of the range `dynamic_levels` selects. -/
def selHigh (df : List Candle) : ℚ :=
  if dropFromWeek df > 1/10 then listMax (lastN 24 (df.map Candle.high))
  else listMax (lastN 168 (df.map Candle.high))

/-- The low of the range `dynamic_levels` selects. -/
def selLow (df : List Candle) : ℚ :=
  if dropFromWeek df > 1/10 then listMin (lastN 24 (df.map Candle.low))
  else listMin (lastN 168 (df.map Candle.low))

/-- `r = high - low if high > low else 0.0001` over the selected range. -/
def selRange (df : List Candle) : ℚ :=
  if selHigh df > selLow df then selHigh df - selLow df else 1/10000

end Combined

/-- On a nonempty frame, `dynamic_levels` returns exactly the record of
retracement levels over the selected range. -/
theorem dynamicLevels_eq (df : List Candle) (h : df ≠ []) :
    Combined.dynamicLevels df = some
      { breakout_weak := Combined.selLow df + Combined.selRange df * (382/1000)
        breakout_strong := Combined.selLow df + Combined.selRange df * (618/1000)
        breakdown_weak := Combined.selLow df + Combined.selRange df * (236/1000)
        breakdown_strong := Combined.selLow df + Combined.selRange df * (118/1000)
        danger := Combined.selLow df
        range_mode := if Combined.dropFromWeek df > 1/10 then "24h crash mode" else "7-day" } := by
  have hni : df.isEmpty = false := by simpa [List.isEmpty_iff] using h
  simp only [Combined.dynamicLevels, hni, Combined.selLow, Combined.selRange,
    Combined.selHigh, Combined.dropFromWeek, Bool.false_eq_true, if_false]

/-- The range floor used by `dynamic_levels` is always positive. -/
theorem selRange_pos (df : List Candle) : 0 < Combined.selRange df := by
  rw [Combined.selRange]
  split_ifs with h
  · linarith
  · norm_num

/-- C7 counterexample: the xrp_report level engine does not anchor its
levels to the selected low with retracement fractions; on the one-candle
series with close 2 its danger level is 2 * 0.92 = 46/25, not the
range low 2 as the claim requires. -/
theorem c7_counterexample :
    (Xrp.computeDynamicLevels [2]).danger = 46/25 ∧
    listMin (lastN 24 [(2:ℚ)]) = 2 ∧ (46/25 : ℚ) ≠ 2 := by
  refine ⟨?_, ?_, by norm_num⟩
  · norm_num [Xrp.computeDynamicLevels, listMin, listMax, lastN]
  · norm_num [listMin, lastN]

/-- C7 (amended): the claimed behaviour — short range selected exactly
when the drop from the 168-candle high exceeds 10% (taken as 0 when that
high is nonpositive), with levels `low + 0.118r / 0.236r / 0.382r /
0.618r` and `danger = low` — is that of `dynamic_levels` in the combined
script, with `r = high - low` when the range is positive and the fixed
fallback 0.0001 otherwise (not a `max` floor); the xrp_report variant
instead derives its levels multiplicatively from the 24-candle close
range (high × 1.02 / 1.06, low × 0.98 / 0.95, danger = low × 0.92). -/
theorem c7_levels_formula (df : List Candle) (h : df ≠ []) :
    ∃ L, Combined.dynamicLevels df = some L ∧
      (L.range_mode = "24h crash mode" ↔ Combined.dropFromWeek df > 1/10) ∧
      (L.range_mode = "7-day" ↔ ¬ Combined.dropFromWeek df > 1/10) ∧
      L.danger = Combined.selLow df ∧
      L.breakdown_strong = Combined.selLow df + Combined.selRange df * (118/1000) ∧
      L.breakdown_weak = Combined.selLow df + Combined.selRange df * (236/1000) ∧
      L.breakout_weak = Combined.selLow df + Combined.selRange df * (382/1000) ∧
      L.breakout_strong = Combined.selLow df + Combined.selRange df * (618/1000) ∧
      ∀ closes : List ℚ,
        (Xrp.computeDynamicLevels closes).breakout_weak = listMax (lastN 24 closes) * (102/100) ∧
        (Xrp.computeDynamicLevels closes).breakout_strong = listMax (lastN 24 closes) * (106/100) ∧
        (Xrp.computeDynamicLevels closes).breakdown_weak = listMin (lastN 24 closes) * (98/100) ∧
        (Xrp.computeDynamicLevels closes).breakdown_strong = listMin (lastN 24 closes) * (95/100) ∧
        (Xrp.computeDynamicLevels closes).danger = listMin (lastN 24 closes) * (92/100) := by
  refine ⟨_, dynamicLevels_eq df h, ?_, ?_, rfl, rfl, rfl, rfl, rfl, ?_⟩
  · by_cases hc : Combined.dropFromWeek df > 1/10 <;> simp [hc]
  · by_cases hc : Combined.dropFromWeek df > 1/10 <;> simp [hc]
  · intro closes
    exact ⟨rfl, rfl, rfl, rfl, rfl⟩

/-- C7 witness: the amended theorem at a concrete one-candle frame. -/
theorem c7_levels_formula_witness :
    ∃ L, Combined.dynamicLevels [Candle.mk 1 1 1] = some L ∧
      L.danger = Combined.selLow [Candle.mk 1 1 1] := by
  obtain ⟨L, h1, hrest⟩ := c7_levels_formula [Candle.mk 1 1 1] (by simp)
  exact ⟨L, h1, hrest.2.2.1⟩

theorem foldl_min_le (x : ℚ) (xs : List ℚ) : xs.foldl min x ≤ x := by
  induction xs generalizing x with
  | nil => exact le_refl x
  | cons y ys ih => exact le_trans (ih (min x y)) (min_le_left x y)

theorem le_foldl_max (x : ℚ) (xs : List ℚ) : x ≤ xs.foldl max x := by
  induction xs generalizing x with
  | nil => exact le_refl x
  | cons y ys ih => exact le_trans (le_max_left x y) (ih (max x y))

theorem listMin_le_listMax {l : List ℚ} (h : l ≠ []) : listMin l ≤ listMax l := by
  cases l with
  | nil => exact absurd rfl h
  | cons x xs => exact le_trans (foldl_min_le x xs) (le_foldl_max x xs)

/-- C8: the strict level ordering
danger < breakdown_strong < breakdown_weak < breakout_weak <
breakout_strong holds for the combined script's levels on every nonempty
frame (the range floor keeps `r` positive even for a degenerate range),
and for the xrp_report levels whenever the selected range is valid
(its 24-candle low positive). -/
theorem c8_level_ordering (df : List Candle) (closes : List ℚ) (h : df ≠ [])
    (hpos : 0 < listMin (lastN 24 closes)) :
    (∃ L, Combined.dynamicLevels df = some L ∧
      L.danger < L.breakdown_strong ∧ L.breakdown_strong < L.breakdown_weak ∧
      L.breakdown_weak < L.breakout_weak ∧ L.breakout_weak < L.breakout_strong) ∧
    ((Xrp.computeDynamicLevels closes).danger < (Xrp.computeDynamicLevels closes).breakdown_strong ∧
     (Xrp.computeDynamicLevels closes).breakdown_strong < (Xrp.computeDynamicLevels closes).breakdown_weak ∧
     (Xrp.computeDynamicLevels closes).breakdown_weak < (Xrp.computeDynamicLevels closes).breakout_weak ∧
     (Xrp.computeDynamicLevels closes).breakout_weak < (Xrp.computeDynamicLevels closes).breakout_strong) := by
  constructor
  · have hr := selRange_pos df
    exact ⟨_, dynamicLevels_eq df h, by linarith, by linarith, by linarith, by linarith⟩
  · have hne : closes ≠ [] := by
      intro he
      rw [he] at hpos
      norm_num [listMin, lastN] at hpos
    have hMm : listMin (lastN 24 closes) ≤ listMax (lastN 24 closes) :=
      listMin_le_listMax (lastN_ne_nil hne (by norm_num))
    refine ⟨?_, ?_, ?_, ?_⟩ <;>
      · simp only [Xrp.computeDynamicLevels]
        linarith

/-- C8 witness: a concrete frame and close series with a valid range. -/
theorem c8_level_ordering_witness :
    ∃ L, Combined.dynamicLevels [Candle.mk 2 1 1] = some L ∧
      L.danger < L.breakdown_strong ∧ L.breakdown_strong < L.breakdown_weak ∧
      L.breakdown_weak < L.breakout_weak ∧ L.breakout_weak < L.breakout_strong :=
  (c8_level_ordering [Candle.mk 2 1 1] [1] (by simp)
    (by norm_num [listMin, lastN])).1

/-- C9: the local-extrema scan never emits an index within `window` of
either series boundary, and on any series shorter than 2*window + 1
candles it emits nothing (the loop range is empty, so no indexing occurs
and no error can be raised). -/
theorem c9_swing_bounds (w : ℕ) (p : List ℚ) (hw : 0 < w) :
    (∀ i ∈ Xrp.localLows w p, w ≤ i ∧ i + w < p.length) ∧
    (∀ i ∈ Xrp.localHighs w p, w ≤ i ∧ i + w < p.length) ∧
    (p.length < 2 * w + 1 → Xrp.localLows w p = [] ∧ Xrp.localHighs w p = []) := by
  refine ⟨?_, ?_, ?_⟩
  · intro i hi
    simp only [Xrp.localLows, List.mem_filter] at hi
    obtain ⟨hr, _⟩ := hi
    rw [List.mem_range'] at hr
    obtain ⟨j, hj, rfl⟩ := hr
    omega
  · intro i hi
    simp only [Xrp.localHighs, List.mem_filter] at hi
    obtain ⟨hr, _⟩ := hi
    rw [List.mem_range'] at hr
    obtain ⟨j, hj, rfl⟩ := hr
    omega
  · intro hlen
    have h0 : p.length - 2 * w = 0 := by omega
    constructor <;> simp [Xrp.localLows, Xrp.localHighs, h0]

/-- C9 witness: window 3 on a two-candle series yields no swing points. -/
theorem c9_swing_bounds_witness :
    0 < 3 ∧ Xrp.localLows 3 [1, 2] = [] ∧ Xrp.localHighs 3 [1, 2] = [] :=
  ⟨by norm_num, (c9_swing_bounds 3 [1, 2] (by norm_num)).2.2 (by simp)⟩

theorem replicate_drop (k n : ℕ) (a : α) :
    (List.replicate n a).drop k = List.replicate (n - k) a := by
  induction k generalizing n with
  | zero => simp
  | succ k ih =>
    cases n with
    | zero => simp
    | succ n => simpa using ih n

theorem lastN_replicate (n k : ℕ) (a : α) (h : k ≤ n) :
    lastN k (List.replicate n a) = List.replicate k a := by
  rw [lastN, List.length_replicate, replicate_drop]
  congr 1
  omega

theorem qmean_replicate (k : ℕ) (v : ℚ) (hk : k ≠ 0) :
    qmean (List.replicate k v) = v := by
  rw [qmean, List.sum_replicate, List.length_replicate, nsmul_eq_mul,
    mul_div_cancel_left₀ v (Nat.cast_ne_zero.2 hk)]

theorem getLast_replicate (n : ℕ) (v : ℚ) (hn : n ≠ 0) :
    (List.replicate n v).getLast?.getD 0 = v := by
  have hne : List.replicate n v ≠ [] :=
    List.length_pos.1 (by simpa using Nat.pos_of_ne_zero hn)
  cases hx : (List.replicate n v).getLast? with
  | none => exact absurd (List.getLast?_eq_none_iff.1 hx) hne
  | some a =>
    have := List.eq_of_mem_replicate (List.mem_of_getLast?_eq_some hx)
    simp [this]

/-- C10: the trailing volume mean of both variants is the mean of the
last 24 volumes (a window ending at, and containing, the latest candle),
so a constant positive-volume series of at least 24 candles always has
ratio exactly 1 and tier Normal in both variants. -/
theorem c10_trailing_mean (vols : List ℚ) (n : ℕ) (v : ℚ)
    (hlen : 24 ≤ vols.length) (hn : 24 ≤ n) (hv : 0 < v) :
    (Xrp.volAvg vols = qmean (lastN 24 vols) ∧
      vols.getLast?.getD 0 ∈ lastN 24 vols) ∧
    Xrp.detectVolumeSpike (List.replicate n v) = some ⟨1, v, v, none⟩ ∧
    Combined.volumeRatioVal (List.replicate n v) = some 1 ∧
    Combined.volumeSpikeTier (List.replicate n v) = some Tier.normal := by
  have hne : List.replicate n v ≠ [] :=
    List.length_pos.1 (by simp; omega)
  have hlast : (List.replicate n v).getLast?.getD 0 = v :=
    getLast_replicate n v (by omega)
  have hlastN : lastN 24 (List.replicate n v) = List.replicate 24 v :=
    lastN_replicate n 24 v hn
  have havg : qmean (lastN 24 (List.replicate n v)) = v := by
    rw [hlastN, qmean_replicate 24 v (by norm_num)]
  have hvne : v ≠ 0 := ne_of_gt hv
  have hr1 : round2 (1 : ℚ) = 1 := by
    have hf : qfloor ((1 : ℚ) * 100) = 100 := by
      rw [qfloor_eq, Int.floor_eq_iff]
      norm_num
    simp only [round2, roundHalfEven, hf]
    norm_num
  refine ⟨⟨?_, ?_⟩, ?_, ?_, ?_⟩
  · rw [Xrp.volAvg, if_neg (by omega)]
  · exact getLast_mem_lastN vols (List.length_pos.1 (by omega)) 24 (by norm_num)
  · have hni : (List.replicate n v).isEmpty = false := by
      simpa [List.isEmpty_iff] using hne
    have hA : Xrp.volAvg (List.replicate n v) = v := by
      rw [Xrp.volAvg, if_neg (by simp; omega), havg]
    simp only [Xrp.detectVolumeSpike, hni, Bool.false_eq_true, if_false, hA, hlast,
      if_pos hv, div_self hvne]
    norm_num [Xrp.classifyLevel]
  · rw [Combined.volumeRatioVal, if_neg (by simp; omega)]
    simp only [havg, hlast, if_neg hvne, div_self hvne]
  · have hni : (List.replicate n v).isEmpty = false := by
      simpa [List.isEmpty_iff] using hne
    simp only [Combined.volumeSpikeTier, hni, Bool.false_eq_true, if_false,
      if_neg (by simp; omega : ¬ (List.replicate n v).length < 24), havg, hlast,
      if_neg hvne, div_self hvne]
    norm_num [Combined.tierFromRaw, hr1]

/-- C10 witness: 24 candles of constant volume 1. -/
theorem c10_trailing_mean_witness :
    Xrp.detectVolumeSpike (List.replicate 24 (1:ℚ)) = some ⟨1, 1, 1, none⟩ ∧
    Combined.volumeSpikeTier (List.replicate 24 (1:ℚ)) = some Tier.normal := by
  have h := c10_trailing_mean (List.replicate 24 (1:ℚ)) 24 1 (by simp) (by norm_num)
    (by norm_num)
  exact ⟨h.2.1, h.2.2.2⟩

end XrpBot
